import Mathlib

/-!
Shallow embedding of `src/canvas/x11/x11.cpp` (class `X11Canvas`) from the
ueberzugpp repository, together with proofs of the specified properties of
its lifecycle operations (`construct`, `init`, `draw`, `clear`) and of its
event dispatcher (`handle_events`).

External collaborators (Xlib/xcb, tmux queries, the process tree, the
pid-to-window map, the error-name facility) are modelled as explicit
environment records; the canvas state (window registry, shared image,
flags) is an explicit state record threaded through the operations.
-/

set_option autoImplicit false

namespace UeberzugX11

/-- The `Image` collaborator: `is_animated()`, `next_frame()`, `frame_delay()`.
`frame_cursor` counts how often `next_frame` has been applied. -/
structure Image where
  animated : Bool
  frame_cursor : Nat
  delay : Nat
  deriving DecidableEq, Repr

/-- Embeds `image->is_animated()`. -/
def Image.is_animated (i : Image) : Bool := i.animated

/-- Embeds `image->next_frame()`: advances the frame cursor. -/
def Image.next_frame (i : Image) : Image := { i with frame_cursor := i.frame_cursor + 1 }

/-- Embeds `image->frame_delay()` in milliseconds. -/
def Image.frame_delay (i : Image) : Nat := i.delay

/-- The `X11Window` collaborator, reduced to its observable effect counters:
`render_count` counts `generate_frame()` calls, `draw_count` counts `draw()`
calls (Expose redraws). `parent` records the parent window id it was
constructed with. -/
structure Window where
  parent : Nat
  render_count : Nat
  draw_count : Nat
  deriving DecidableEq, Repr

/-- A freshly constructed `X11Window` with parent `parent`: no frame has been
generated and no redraw requested yet. -/
def Window.create (parent : Nat) : Window :=
  { parent := parent, render_count := 0, draw_count := 0 }

/-- Embeds `window->generate_frame()`. -/
def Window.generate_frame (w : Window) : Window :=
  { w with render_count := w.render_count + 1 }

/-- Embeds `window->draw()` (the Expose redraw request). -/
def Window.redraw (w : Window) : Window :=
  { w with draw_count := w.draw_count + 1 }

/-- The mutable state of an `X11Canvas` object: the window registry
(`std::unordered_map<xcb_window_t, std::unique_ptr<X11Window>> windows`,
modelled as an association list with unique keys), the shared image
(`std::unique_ptr<Image> image`, `none` when null), the atomic flag
`can_draw`, whether the animation thread `draw_thread` is joinable, and the
xcb id generator state (`xcb_generate_id` yields `next_id`, `next_id + 1`,
...). -/
structure X11Canvas where
  windows : List (Nat × Window)
  image : Option Image
  can_draw : Bool
  draw_thread : Bool
  next_id : Nat
  deriving DecidableEq, Repr

/-- The canvas state right after the constructor returns: empty registry, no
image, `can_draw` initialised true, no animation thread. -/
def freshCanvas : X11Canvas :=
  { windows := [], image := none, can_draw := true, draw_thread := false, next_id := 0 }

/-- Embeds `std::unordered_map::insert`: inserts `(k, w)` only when no entry with key
`k` exists; an existing entry is left untouched. -/
def mapInsert (m : List (Nat × Window)) (k : Nat) (w : Window) : List (Nat × Window) :=
  if (m.lookup k).isSome then m else m ++ [(k, w)]

/-- Embeds `std::unordered_set::insert` on a set of window ids, modelled as a
duplicate-free list. -/
def setInsert (s : List Nat) (x : Nat) : List Nat :=
  if x ∈ s then s else s ++ [x]

/-- The external collaborators used by `init`/`get_tmux_window_ids`:
`tmux::get_client_pids()` (an `std::optional`), `util::get_process_tree(pid)`
(the ancestor pid chain), and `xutil->get_pid_window_map()` (an association
list from pid to top-level window id). -/
structure TmuxEnv where
  tmux_client_pids : Option (List Nat)
  process_tree : Nat → List Nat
  pid_window_map : List (Nat × Nat)

/-- Embeds `X11Canvas::get_tmux_window_ids(windows)`: when tmux reports no clients
the seed set is returned unchanged; otherwise, for each client pid, every
ancestor pid found in the pid-to-window map contributes its window id. -/
def get_tmux_window_ids (env : TmuxEnv) (ws : List Nat) : List Nat :=
  match env.tmux_client_pids with
  | none => ws
  | some pids =>
    pids.foldl (fun acc pid =>
      (env.process_tree pid).foldl (fun acc2 ppid =>
        match env.pid_window_map.lookup ppid with
        | none => acc2
        | some win => setInsert acc2 win) acc) ws

/-- The `Dimensions` collaborator; only `dimensions.terminal.x11_wid` is read
by this translation unit. -/
structure Dimensions where
  terminal_x11_wid : Nat
  deriving DecidableEq, Repr

/-- The target window id set computed inside `init`: the set seeded with the
terminal's own window id, then extended by `get_tmux_window_ids`. -/
def resolveTargets (env : TmuxEnv) (terminal_wid : Nat) : List Nat :=
  get_tmux_window_ids env (setInsert [] terminal_wid)

/-- The `std::ranges::for_each` body of `init`: for each parent id,
`xcb_generate_id` yields a fresh window id and a new `X11Window` is inserted
into the registry. -/
def registerWindows (parent_ids : List Nat) (c : X11Canvas) : X11Canvas :=
  parent_ids.foldl (fun acc parent =>
    { acc with
        next_id := acc.next_id + 1,
        windows := mapInsert acc.windows acc.next_id (Window.create parent) }) c

/-- Embeds `X11Canvas::init(dimensions, new_image)`: stores the image, resolves the
target parent ids, and for each parent generates a fresh window id and
inserts a newly constructed `X11Window` into the registry. -/
def X11Canvas.init (env : TmuxEnv) (dims : Dimensions) (new_image : Image)
    (c : X11Canvas) : X11Canvas :=
  registerWindows (resolveTargets env dims.terminal_x11_wid)
    { c with image := some new_image }

/-- Embeds `X11Canvas::draw()`. The image pointer is dereferenced unconditionally
(`image->is_animated()`); a null image is undefined behaviour, modelled as
`none`. A static image renders once on every registered window and returns;
an animated image spawns the animation thread. -/
def X11Canvas.draw (c : X11Canvas) : Option X11Canvas :=
  match c.image with
  | none => none
  | some img =>
    if !img.is_animated then
      some { c with
               windows := c.windows.map fun p => (p.1, p.2.generate_frame) }
    else
      some { c with draw_thread := true }

/-- One iteration body of the animation loop spawned by `draw()`: every
registered window generates a frame, then the image advances to its next
frame (the sleep has no effect on state). Undefined (`none`) when the image
is null. -/
def animBody (c : X11Canvas) : Option X11Canvas :=
  match c.image with
  | none => none
  | some img =>
    some { c with
             windows := c.windows.map fun p => (p.1, p.2.generate_frame),
             image := some img.next_frame }

/-- The animation loop `while (can_draw.load()) { ... }`. The values returned
by the atomic reads are supplied by `canDrawSignal` (read `i` is
`canDrawSignal i`), so that a concurrent `clear()` storing `false` is
representable. `stopSignal` models the process-wide
`Application::stop_flag_`, available in scope but never read by this loop.
`none` means the loop is still running after `fuel` iterations (or hit the
undefined null-image dereference); `some (j, c)` means the loop exited at
read `j` with state `c`. -/
def animLoop (stopSignal : Nat → Bool) (canDrawSignal : Nat → Bool) :
    Nat → Nat → X11Canvas → Option (Nat × X11Canvas)
  | 0, _, _ => none
  | fuel + 1, i, c =>
    if canDrawSignal i then
      match animBody c with
      | none => none
      | some c' => animLoop stopSignal canDrawSignal fuel (i + 1) c'
    else
      some (i, c)

/-- Embeds `X11Canvas::clear()`: stores `false` into `can_draw`, joins the animation
thread, clears the registry, resets the image, and re-arms `can_draw`. -/
def X11Canvas.clear (c : X11Canvas) : X11Canvas :=
  let c1 : X11Canvas := { c with can_draw := false }
  let c2 : X11Canvas := { c1 with draw_thread := false }
  let c3 : X11Canvas := { c2 with windows := [] }
  let c4 : X11Canvas := { c3 with image := none }
  { c4 with can_draw := true }

/-! ### Event dispatch (`X11Canvas::handle_events`) -/

/-- Severity of a log call: `logger->debug`, `logger->error`, `logger->info`. -/
inductive LogLevel where
  | debug
  | error
  | info
  deriving DecidableEq, Repr

/-- One emitted log line. -/
structure LogEntry where
  level : LogLevel
  msg : String
  deriving DecidableEq, Repr

/-- An `xcb_generic_event_t` together with the payload fields read after the
`reinterpret_cast`s: the error fields (`xcb_generic_error_t`) and the Expose
field (`xcb_expose_event_t::window`). `response_type` is a `uint8_t`. -/
structure RawEvent where
  response_type : Nat
  error_code : Nat
  major_code : Nat
  minor_code : Nat
  resource_id : Nat
  sequence : Nat
  window : Nat
  deriving DecidableEq, Repr

/-- Embeds `event->response_type & ~event_mask` with `event_mask = 0x80`: since
`response_type` is a `uint8_t`, masking off the high bit is bitwise-and
with `0x7f`. -/
def eventType (ev : RawEvent) : Nat := ev.response_type &&& 0x7f

/-- Constant `XCB_EXPOSE` from `<xcb/xproto.h>`. -/
def XCB_EXPOSE : Nat := 12

/-- The `xcb_errors` facility: `xcb_errors_get_name_for_major_code`,
`xcb_errors_get_name_for_minor_code` (may return null, hence `Option`), and
`xcb_errors_get_name_for_error` which yields the error name and an optional
extension name through its out-parameter. -/
structure ErrCtx where
  major_name : Nat → String
  minor_name : Nat → Nat → Option String
  error_name : Nat → String × Option String

/-- Embeds `window->draw()` applied to the registry entry with key `wid`. -/
def redrawWindow (m : List (Nat × Window)) (wid : Nat) : List (Nat × Window) :=
  m.map fun p => if p.1 = wid then (p.1, p.2.redraw) else p

/-- The body of the inner `switch` of `X11Canvas::handle_events`, dispatching
one drained event: case 0 decodes and logs the protocol error; case
`XCB_EXPOSE` logs at debug and redraws the target window, the
`std::out_of_range` from `windows.at` on an unknown id being caught and
ignored; every other type is logged at debug as unknown. Returns the updated
canvas state and the log lines emitted, in order. -/
def dispatchEvent (ectx : ErrCtx) (c : X11Canvas) (ev : RawEvent) :
    X11Canvas × List LogEntry :=
  if eventType ev = 0 then
    let major := ectx.major_name ev.major_code
    let minor := ectx.minor_name ev.major_code ev.minor_code
    let err := ectx.error_name ev.error_code
    (c, [⟨LogLevel.error,
          "XCB: " ++ err.1 ++ ":" ++ err.2.getD "no_extension" ++ ", " ++
          major ++ ":" ++ minor.getD "no_minor" ++ ", resource " ++
          toString ev.resource_id ++ " sequence " ++ toString ev.sequence⟩])
  else if eventType ev = XCB_EXPOSE then
    let logs := [⟨LogLevel.debug,
                  "Received expose event for window " ++ toString ev.window⟩]
    match c.windows.lookup ev.window with
    | some _ => ({ c with windows := redrawWindow c.windows ev.window }, logs)
    | none => (c, logs)
  else
    (c, [⟨LogLevel.debug, "Received unknown event " ++ toString (eventType ev)⟩])

/-- The inner `while (event != nullptr)` drain loop: dispatches every queued
event in order, accumulating the log lines. -/
def drainEvents (ectx : ErrCtx) (c : X11Canvas) :
    List RawEvent → X11Canvas × List LogEntry
  | [] => (c, [])
  | ev :: evs =>
    let r := dispatchEvent ectx c ev
    let r' := drainEvents ectx r.1 evs
    (r'.1, r.2 ++ r'.2)

/-! ### Construction (`X11Canvas::X11Canvas`) -/

/-- The visual descriptor filled in by `XMatchVisualInfo`. -/
structure VisualInfo where
  visual_id : Nat
  depth : Nat
  deriving DecidableEq, Repr

/-- The Xlib/xcb calls made by the constructor: `XOpenDisplay(nullptr)` (null
on failure), `XDefaultScreen`, `XGetXCBConnection` (null on failure), the
screen list behind `xcb_setup_roots_iterator`, and `XMatchVisualInfo`
(display, screen number, depth, class; zero result on failure). -/
structure ConnEnv where
  open_display : Option Nat
  default_screen : Nat → Nat
  get_xcb_connection : Nat → Option Nat
  screens : List Nat
  match_visual : Nat → Nat → Nat → Nat → Option VisualInfo

/-- Constant `TrueColor` from `<X11/X.h>`. -/
def TrueColorClass : Nat := 4

/-- The screen-iterator walk `for(int screen_num = default_screen;
screen_iter.rem > 0 && screen_num > 0; --screen_num) xcb_screen_next(...)`:
advances at most `n` times, stopping early when the list is exhausted, and
reads `screen_iter.data` afterwards (`none` when the iterator walked past the
end). -/
def screenWalk (iter : List Nat) : Nat → Option Nat
  | 0 => iter.head?
  | n + 1 =>
    match iter with
    | [] => none
    | _ :: rest => screenWalk rest n

/-- The fields a successful constructor leaves initialised. -/
structure CanvasCtx where
  display : Nat
  default_screen : Nat
  connection : Nat
  screen : Option Nat
  vinfo : VisualInfo
  deriving DecidableEq, Repr

/-- Embeds `X11Canvas::X11Canvas()`: opens the display (throwing on null), derives
the xcb connection (throwing on null), walks the screen iterator to the
default screen, and matches a depth-32 `TrueColor` visual (throwing when
`XMatchVisualInfo` returns 0). `Except.error` carries the exception
message. -/
def constructCanvas (env : ConnEnv) : Except String CanvasCtx :=
  match env.open_display with
  | none => Except.error "Can't open X11 display"
  | some display =>
    let default_screen := env.default_screen display
    match env.get_xcb_connection display with
    | none => Except.error "Can't get xcb connection from display"
    | some connection =>
      let screen := screenWalk env.screens default_screen
      match env.match_visual display default_screen 32 TrueColorClass with
      | none => Except.error "Can't find visual"
      | some vinfo =>
        Except.ok { display := display, default_screen := default_screen,
                    connection := connection, screen := screen, vinfo := vinfo }

/-! ### Concrete sample environments used to instantiate the theorems -/

/-- A run with no multiplexer and a static 40ms image. -/
def envStatic : TmuxEnv := ⟨none, fun _ => [], []⟩

/-- A static image: not animated, cursor at 0. -/
def imgStatic : Image := ⟨false, 0, 40⟩

/-- An animated image. -/
def imgAnim : Image := ⟨true, 0, 10⟩

/-- A tmux session with one client (pid 3) whose ancestor chain `[3, 2, 1]`
hits the pid-to-window map at pid 2, owning window 77. -/
def envTmux : TmuxEnv := ⟨some [3], fun p => if p = 3 then [3, 2, 1] else [], [(2, 77)]⟩

/-- A canvas holding a static image whose cursor sits at frame 5. -/
def canvasMidAnim : X11Canvas := { freshCanvas with image := some ⟨false, 5, 100⟩ }

/-- A canvas with one pre-existing registered window. -/
def canvasOneWindow : X11Canvas := { freshCanvas with windows := [(9, Window.create 1)] }

/-- An error-name facility with fixed names. -/
def errCtxSample : ErrCtx := ⟨fun _ => "MAJ", fun _ _ => some "MIN", fun _ => ("ERR", some "EXT")⟩

/-- An Expose event (`XCB_EXPOSE = 12`) targeting window 42. -/
def evExpose42 : RawEvent := ⟨12, 0, 0, 0, 0, 0, 42⟩

/-- A protocol error event with known field values. -/
def evError : RawEvent := ⟨0, 1, 2, 3, 4, 5, 0⟩

/-- A connection environment whose display cannot be opened. -/
def envNoDisplay : ConnEnv := ⟨none, fun _ => 0, fun _ => none, [], fun _ _ _ _ => none⟩

/-- A connection environment where every constructor step succeeds. -/
def envConnOk : ConnEnv :=
  ⟨some 1, fun _ => 0, fun _ => some 2, [10], fun _ _ _ _ => some ⟨3, 32⟩⟩

/-- The context `envConnOk`'s constructor produces. -/
def ctxConnOk : CanvasCtx := ⟨1, 0, 2, some 10, ⟨3, 32⟩⟩

/-! ### Helper lemmas -/

theorem mem_setInsert {s : List Nat} {x y : Nat} :
    x ∈ setInsert s y ↔ x ∈ s ∨ x = y := by
  unfold setInsert
  split
  · next h =>
    constructor
    · exact Or.inl
    · rintro (hx | rfl)
      · exact hx
      · exact h
  · simp

theorem nodup_setInsert {s : List Nat} {y : Nat} (h : s.Nodup) :
    (setInsert s y).Nodup := by
  unfold setInsert
  split
  · exact h
  · next hy => simpa [List.nodup_append] using ⟨h, hy⟩

/-- Membership in the inner fold over one client pid's ancestor chain. -/
theorem mem_pidFold (env : TmuxEnv) (ppids : List Nat) (acc : List Nat) (x : Nat) :
    x ∈ ppids.foldl (fun acc2 ppid =>
        match env.pid_window_map.lookup ppid with
        | none => acc2
        | some win => setInsert acc2 win) acc ↔
      x ∈ acc ∨ ∃ ppid, ppid ∈ ppids ∧ env.pid_window_map.lookup ppid = some x := by
  induction ppids generalizing acc with
  | nil => simp
  | cons p rest ih =>
    rw [List.foldl_cons, ih]
    cases h : env.pid_window_map.lookup p with
    | none =>
      simp only [h, List.mem_cons]
      constructor
      · rintro (hx | ⟨q, hq, hl⟩)
        · exact Or.inl hx
        · exact Or.inr ⟨q, Or.inr hq, hl⟩
      · rintro (hx | ⟨q, rfl | hq, hl⟩)
        · exact Or.inl hx
        · simp [h] at hl
        · exact Or.inr ⟨q, hq, hl⟩
    | some w =>
      simp only [h, mem_setInsert, List.mem_cons]
      constructor
      · rintro ((hx | rfl) | ⟨q, hq, hl⟩)
        · exact Or.inl hx
        · exact Or.inr ⟨p, Or.inl rfl, h⟩
        · exact Or.inr ⟨q, Or.inr hq, hl⟩
      · rintro (hx | ⟨q, rfl | hq, hl⟩)
        · exact Or.inl (Or.inl hx)
        · rw [h] at hl
          exact Or.inl (Or.inr (Option.some_injective _ hl).symm)
        · exact Or.inr ⟨q, hq, hl⟩

theorem nodup_pidFold (env : TmuxEnv) (ppids : List Nat) (acc : List Nat)
    (h : acc.Nodup) :
    (ppids.foldl (fun acc2 ppid =>
        match env.pid_window_map.lookup ppid with
        | none => acc2
        | some win => setInsert acc2 win) acc).Nodup := by
  induction ppids generalizing acc with
  | nil => exact h
  | cons p rest ih =>
    rw [List.foldl_cons]
    cases hp : env.pid_window_map.lookup p with
    | none => simpa [hp] using ih acc h
    | some w => simpa [hp] using ih _ (nodup_setInsert h)

/-- Membership in the outer fold of `get_tmux_window_ids` over the client
pid list. -/
theorem mem_clientFold (env : TmuxEnv) (pids : List Nat) (ws : List Nat) (x : Nat) :
    x ∈ pids.foldl (fun acc pid =>
        (env.process_tree pid).foldl (fun acc2 ppid =>
          match env.pid_window_map.lookup ppid with
          | none => acc2
          | some win => setInsert acc2 win) acc) ws ↔
      x ∈ ws ∨ ∃ pid, pid ∈ pids ∧ ∃ ppid, ppid ∈ env.process_tree pid ∧
        env.pid_window_map.lookup ppid = some x := by
  induction pids generalizing ws with
  | nil => simp
  | cons p rest ih =>
    rw [List.foldl_cons, ih, mem_pidFold]
    constructor
    · rintro ((hws | ⟨r, hr, hlook⟩) | ⟨q, hq, r, hr, hlook⟩)
      · exact Or.inl hws
      · exact Or.inr ⟨p, List.mem_cons_self p rest, r, hr, hlook⟩
      · exact Or.inr ⟨q, List.mem_cons_of_mem p hq, r, hr, hlook⟩
    · rintro (hws | ⟨q, hq, r, hr, hlook⟩)
      · exact Or.inl (Or.inl hws)
      · rcases List.mem_cons.mp hq with rfl | hq'
        · exact Or.inl (Or.inr ⟨r, hr, hlook⟩)
        · exact Or.inr ⟨q, hq', r, hr, hlook⟩

/-- Membership in `get_tmux_window_ids`. -/
theorem mem_get_tmux_window_ids (env : TmuxEnv) (ws : List Nat) (x : Nat) :
    x ∈ get_tmux_window_ids env ws ↔
      x ∈ ws ∨ ∃ pids, env.tmux_client_pids = some pids ∧
        ∃ pid, pid ∈ pids ∧ ∃ ppid, ppid ∈ env.process_tree pid ∧
          env.pid_window_map.lookup ppid = some x := by
  unfold get_tmux_window_ids
  cases htm : env.tmux_client_pids with
  | none => simp [htm]
  | some pids =>
    rw [mem_clientFold]
    simp [htm]

theorem nodup_get_tmux_window_ids (env : TmuxEnv) (ws : List Nat)
    (h : ws.Nodup) : (get_tmux_window_ids env ws).Nodup := by
  unfold get_tmux_window_ids
  cases env.tmux_client_pids with
  | none => exact h
  | some pids =>
    dsimp only
    induction pids generalizing ws with
    | nil => exact h
    | cons p rest ih =>
      rw [List.foldl_cons]
      exact ih _ (nodup_pidFold env _ ws h)

theorem registerWindows_image (l : List Nat) (c : X11Canvas) :
    (registerWindows l c).image = c.image := by
  unfold registerWindows
  induction l generalizing c with
  | nil => rfl
  | cons p rest ih => rw [List.foldl_cons]; exact ih _

theorem registerWindows_draw_thread (l : List Nat) (c : X11Canvas) :
    (registerWindows l c).draw_thread = c.draw_thread := by
  unfold registerWindows
  induction l generalizing c with
  | nil => rfl
  | cons p rest ih => rw [List.foldl_cons]; exact ih _

theorem registerWindows_can_draw (l : List Nat) (c : X11Canvas) :
    (registerWindows l c).can_draw = c.can_draw := by
  unfold registerWindows
  induction l generalizing c with
  | nil => rfl
  | cons p rest ih => rw [List.foldl_cons]; exact ih _

theorem mem_mapInsert {m : List (Nat × Window)} {k : Nat} {w : Window}
    {p : Nat × Window} (h : p ∈ mapInsert m k w) : p ∈ m ∨ p = (k, w) := by
  unfold mapInsert at h
  split at h
  · exact Or.inl h
  · rcases List.mem_append.mp h with hm | hw
    · exact Or.inl hm
    · exact Or.inr (List.mem_singleton.mp hw)

theorem mem_mapInsert_of_mem {m : List (Nat × Window)} {k : Nat} {w : Window}
    {p : Nat × Window} (h : p ∈ m) : p ∈ mapInsert m k w := by
  unfold mapInsert
  split
  · exact h
  · exact List.mem_append_left _ h

theorem registerWindows_superset (l : List Nat) (c : X11Canvas)
    {p : Nat × Window} (h : p ∈ c.windows) : p ∈ (registerWindows l c).windows := by
  unfold registerWindows
  induction l generalizing c with
  | nil => exact h
  | cons q rest ih =>
    rw [List.foldl_cons]
    exact ih _ (mem_mapInsert_of_mem h)

/-- Every window present after `registerWindows` was either already present
or is a freshly constructed one. -/
theorem registerWindows_fresh (l : List Nat) (c : X11Canvas)
    {p : Nat × Window} (h : p ∈ (registerWindows l c).windows) :
    p ∈ c.windows ∨ p.2.render_count = 0 := by
  unfold registerWindows at h
  induction l generalizing c with
  | nil => exact Or.inl h
  | cons q rest ih =>
    rw [List.foldl_cons] at h
    rcases ih _ h with hmem | hzero
    · rcases mem_mapInsert hmem with hm | rfl
      · exact Or.inl hm
      · exact Or.inr rfl
    · exact Or.inr hzero

theorem init_image (env : TmuxEnv) (dims : Dimensions) (img : Image)
    (c : X11Canvas) : (c.init env dims img).image = some img := by
  unfold X11Canvas.init
  rw [registerWindows_image]

theorem screenWalk_eq_get (iter : List Nat) (n : Nat) :
    screenWalk iter n = iter.get? n := by
  induction n generalizing iter with
  | zero => cases iter <;> rfl
  | succ m ih => cases iter with
    | nil => rfl
    | cons s rest => exact ih rest

/-- The diagnostic string `sub` occurs verbatim inside `hay`. -/
def strContains (sub hay : String) : Prop := sub.data <:+: hay.data

theorem string_data_append (a b : String) : (a ++ b).data = a.data ++ b.data := rfl

theorem strContains_head (s t : String) : strContains s (s ++ t) :=
  ⟨[], t.data, by simp [string_data_append]⟩

theorem strContains_tail (s t : String) : strContains s (t ++ s) :=
  ⟨t.data, [], by simp [string_data_append]⟩

theorem strContains_append_right {s t : String} (u : String)
    (h : strContains s t) : strContains s (t ++ u) := by
  obtain ⟨a, b, hab⟩ := h
  exact ⟨a, b ++ u.data, by rw [string_data_append, ← hab]; simp⟩

theorem strContains_append_left {s t : String} (u : String)
    (h : strContains s t) : strContains s (u ++ t) := by
  obtain ⟨a, b, hab⟩ := h
  exact ⟨u.data ++ a, b, by rw [string_data_append, ← hab]; simp⟩

/-- If the animation loop's guard reads `false`, the loop exits immediately
with the state unchanged: the `join` inside `clear()` cannot hang once
`can_draw` has been stored `false`. -/
theorem animLoop_exits_on_false (s can : Nat → Bool) (fuel i : Nat)
    (c : X11Canvas) (h : can i = false) :
    animLoop s can (fuel + 1) i c = some (i, c) := by
  unfold animLoop
  rw [h]
  rfl

/-! ### Claim theorems -/

/-- Claim C2: the resolved target-window set always contains the terminal's
own window id; with no multiplexer present it is exactly the singleton
`[terminal_wid]`; otherwise it additionally contains, for each client pid,
every window id the pid-to-window map assigns to some ancestor in that pid's
process chain; duplicates collapse because the result is a set (duplicate
free). -/
theorem resolve_targets_spec (env : TmuxEnv) (twid : Nat) :
    twid ∈ resolveTargets env twid
    ∧ (env.tmux_client_pids = none → resolveTargets env twid = [twid])
    ∧ (∀ x, x ∈ resolveTargets env twid ↔
        x = twid ∨ ∃ pids, env.tmux_client_pids = some pids ∧
          ∃ pid, pid ∈ pids ∧ ∃ ppid, ppid ∈ env.process_tree pid ∧
            env.pid_window_map.lookup ppid = some x)
    ∧ (resolveTargets env twid).Nodup := by
  have hseed : setInsert [] twid = [twid] := by simp [setInsert]
  refine ⟨?_, ?_, ?_, ?_⟩
  · unfold resolveTargets
    rw [hseed]
    exact (mem_get_tmux_window_ids env [twid] twid).mpr (Or.inl (List.mem_singleton.mpr rfl))
  · intro h
    unfold resolveTargets
    rw [hseed]
    unfold get_tmux_window_ids
    rw [h]
  · intro x
    unfold resolveTargets
    rw [hseed, mem_get_tmux_window_ids]
    simp [List.mem_singleton]
  · unfold resolveTargets
    exact nodup_get_tmux_window_ids env _ (by rw [hseed]; simp)

/-- Witness for C2: in `envTmux`, window 77 (owned by ancestor pid 2 of
client pid 3) and the terminal window 5 are both resolved; with no
multiplexer the result is exactly `[5]`. -/
theorem resolve_targets_spec_witness :
    77 ∈ resolveTargets envTmux 5 ∧ 5 ∈ resolveTargets envTmux 5
    ∧ resolveTargets envStatic 5 = [5] :=
  ⟨(resolve_targets_spec envTmux 5).2.2.1 77 |>.mpr
      (Or.inr ⟨[3], rfl, 3, by decide, 2, by decide, by decide⟩),
    (resolve_targets_spec envTmux 5).1,
    (resolve_targets_spec envStatic 5).2.1 rfl⟩

/-- Claim C3: `clear()` leaves the registry empty and the image released,
for any starting state (in particular before any `init`, and when applied
twice in a row); it is idempotent on the resulting state; and the join
inside it cannot hang because the animation loop exits at the first guard
read returning `false`. -/
theorem clear_idempotent_and_safe :
    (∀ c : X11Canvas, c.clear.windows = [] ∧ c.clear.image = none ∧ c.clear.clear = c.clear)
    ∧ freshCanvas.clear.windows = [] ∧ freshCanvas.clear.image = none
    ∧ ∀ (s can : Nat → Bool) (fuel i : Nat) (c : X11Canvas),
        can i = false → animLoop s can (fuel + 1) i c = some (i, c) :=
  ⟨fun _ => ⟨rfl, rfl, rfl⟩, rfl, rfl,
    fun s can fuel i c h => animLoop_exits_on_false s can fuel i c h⟩

/-- Witness for C3: with the `can_draw` reads returning `false`, the
animation loop exits at once. -/
theorem clear_idempotent_and_safe_witness :
    animLoop (fun _ => true) (fun _ => false) 4 0 freshCanvas = some (0, freshCanvas) :=
  clear_idempotent_and_safe.2.2.2 (fun _ => true) (fun _ => false) 3 0 freshCanvas rfl

/-- Claim C7: the animation loop's result is independent of the process-wide
stop signal (the loop never reads it), and whenever the loop exits, the
locally-owned `can_draw` flag read `false` at the exiting iteration: the
loop is left only through the flag that `clear()` clears. -/
theorem anim_loop_exit_only_via_flag (s s' can : Nat → Bool) (fuel i : Nat)
    (c : X11Canvas) :
    animLoop s can fuel i c = animLoop s' can fuel i c
    ∧ ∀ j c', animLoop s can fuel i c = some (j, c') → can j = false := by
  induction fuel generalizing i c with
  | zero =>
    refine ⟨rfl, fun j c' h => ?_⟩
    simp [animLoop] at h
  | succ n ih =>
    constructor
    · unfold animLoop
      cases hcan : can i with
      | false => rfl
      | true =>
        simp only [hcan]
        cases hb : animBody c with
        | none => rfl
        | some c2 => exact (ih (i + 1) c2).1
    · intro j c' h
      unfold animLoop at h
      cases hcan : can i with
      | false =>
        rw [hcan] at h
        simp at h
        rw [← h.1, hcan]
      | true =>
        rw [hcan] at h
        simp only [if_pos rfl] at h
        cases hb : animBody c with
        | none => rw [hb] at h; cases h
        | some c2 =>
          rw [hb] at h
          exact (ih (i + 1) c2).2 j c' h

/-- Witness for C7: a loop whose flag reads `false` at read 0 exits there,
whatever the stop signal holds. -/
theorem anim_loop_exit_only_via_flag_witness :
    (fun _ : Nat => false) 0 = false :=
  (anim_loop_exit_only_via_flag (fun _ => true) (fun _ => false) (fun _ => false)
    1 0 freshCanvas).2 0 freshCanvas rfl

/-- Claim C8: for a non-animated image, `draw()` never advances the frame
cursor: the image, and in particular its frame cursor, is unchanged when
`draw()` returns. -/
theorem static_draw_never_advances_frame (c : X11Canvas) (img : Image)
    (h1 : c.image = some img) (h2 : img.animated = false) :
    ∃ c', c.draw = some c' ∧ c'.image = some img
      ∧ ∀ img', c'.image = some img' → img'.frame_cursor = img.frame_cursor := by
  refine ⟨{ c with windows := c.windows.map fun p => (p.1, p.2.generate_frame) },
    ?_, h1, ?_⟩
  · simp [X11Canvas.draw, h1, Image.is_animated, h2]
  · intro img' h
    have : some img = some img' := h1.symm.trans h
    cases this
    rfl

/-- Witness for C8: drawing `canvasMidAnim` leaves its cursor at frame 5. -/
theorem static_draw_never_advances_frame_witness :
    ∃ c', canvasMidAnim.draw = some c' ∧ c'.image = some ⟨false, 5, 100⟩
      ∧ ∀ img', c'.image = some img' → img'.frame_cursor = (5 : Nat) :=
  static_draw_never_advances_frame canvasMidAnim ⟨false, 5, 100⟩ rfl rfl

/-- Claim C9: `init` only inserts into the registry: every previously
registered window (and hence every previously present key) is still
registered after a second `init` without an intervening `clear`, while the
shared image is replaced by the new one. -/
theorem init_registry_superset (env : TmuxEnv) (dims : Dimensions) (img : Image)
    (c : X11Canvas) :
    (∀ k, k ∈ c.windows.map Prod.fst → k ∈ (c.init env dims img).windows.map Prod.fst)
    ∧ (∀ p, p ∈ c.windows → p ∈ (c.init env dims img).windows)
    ∧ (c.init env dims img).image = some img := by
  have hmem : ∀ p, p ∈ c.windows → p ∈ (c.init env dims img).windows := by
    intro p hp
    unfold X11Canvas.init
    exact registerWindows_superset _ _ hp
  refine ⟨?_, hmem, init_image env dims img c⟩
  intro k hk
  rcases List.mem_map.mp hk with ⟨p, hp, hpk⟩
  exact List.mem_map.mpr ⟨p, hmem p hp, hpk⟩

/-- Witness for C9: re-running `init` on a canvas that already registered
window 9 keeps key 9 registered and installs the new image. -/
theorem init_registry_superset_witness :
    9 ∈ (canvasOneWindow.init envStatic ⟨5⟩ imgAnim).windows.map Prod.fst
    ∧ (canvasOneWindow.init envStatic ⟨5⟩ imgAnim).image = some imgAnim :=
  ⟨(init_registry_superset envStatic ⟨5⟩ imgAnim canvasOneWindow).1 9 (by decide),
    (init_registry_superset envStatic ⟨5⟩ imgAnim canvasOneWindow).2.2⟩

/-- Claim C10: `draw()` dereferences the image unconditionally, so it is
undefined exactly when the image is absent; after `init` (and before a
`clear`) the image is present and `draw()` is defined, while right after
`clear()` it is undefined. -/
theorem draw_requires_image_present (c : X11Canvas) :
    (c.image = none → c.draw = none)
    ∧ (∀ img, c.image = some img → c.draw.isSome = true)
    ∧ (∀ env dims img, ((c.init env dims img).draw).isSome = true)
    ∧ c.clear.draw = none := by
  have hsome : ∀ (d : X11Canvas) (img : Image), d.image = some img →
      d.draw.isSome = true := by
    intro d img h
    unfold X11Canvas.draw
    rw [h]
    dsimp only
    split <;> rfl
  refine ⟨?_, fun img h => hsome c img h, ?_, rfl⟩
  · intro h
    unfold X11Canvas.draw
    rw [h]
  · intro env dims img
    exact hsome _ img (init_image env dims img c)

/-- Witness for C10: a freshly constructed canvas (no `init` yet) has no
image and `draw` is undefined on it; after an `init` it is defined. -/
theorem draw_requires_image_present_witness :
    freshCanvas.draw = none
    ∧ ((freshCanvas.init envStatic ⟨5⟩ imgStatic).draw).isSome = true :=
  ⟨(draw_requires_image_present freshCanvas).1 rfl,
    (draw_requires_image_present freshCanvas).2.2.1 envStatic ⟨5⟩ imgStatic⟩

/-- Claim C1: after `init` (on a freshly constructed canvas) followed by
`draw` with a static image, `draw` performs exactly one `generate_frame` on
every window in the registry (each window's render count goes from 0 to 1,
with the key set unchanged) and spawns no animation thread. -/
theorem init_then_draw_static_renders_each_window_once (env : TmuxEnv)
    (dims : Dimensions) (img : Image) (h : img.animated = false) :
    ∃ c2, (freshCanvas.init env dims img).draw = some c2
      ∧ c2.draw_thread = false
      ∧ c2.windows = (freshCanvas.init env dims img).windows.map
          (fun p => (p.1, p.2.generate_frame))
      ∧ (∀ p, p ∈ c2.windows → p.2.render_count = 1)
      ∧ c2.windows.map Prod.fst = (freshCanvas.init env dims img).windows.map Prod.fst := by
  have him : (freshCanvas.init env dims img).image = some img :=
    init_image env dims img freshCanvas
  refine ⟨{ freshCanvas.init env dims img with
              windows := (freshCanvas.init env dims img).windows.map
                fun p => (p.1, p.2.generate_frame) }, ?_, ?_, rfl, ?_, ?_⟩
  · simp [X11Canvas.draw, him, Image.is_animated, h]
  · show (freshCanvas.init env dims img).draw_thread = false
    unfold X11Canvas.init
    rw [registerWindows_draw_thread]
    rfl
  · intro p hp
    rcases List.mem_map.mp hp with ⟨q, hq, rfl⟩
    have hq0 : q.2.render_count = 0 := by
      rcases registerWindows_fresh _ _ hq with habs | h0
      · simp [freshCanvas] at habs
      · exact h0
    simp [Window.generate_frame, hq0]
  · rw [List.map_map]
    rfl

/-- Witness for C1: a concrete `init` + `draw` with a static image. -/
theorem init_then_draw_static_witness :
    ∃ c2, (freshCanvas.init envStatic ⟨7⟩ imgStatic).draw = some c2
      ∧ c2.draw_thread = false
      ∧ c2.windows = (freshCanvas.init envStatic ⟨7⟩ imgStatic).windows.map
          (fun p => (p.1, p.2.generate_frame))
      ∧ (∀ p, p ∈ c2.windows → p.2.render_count = 1)
      ∧ c2.windows.map Prod.fst =
          (freshCanvas.init envStatic ⟨7⟩ imgStatic).windows.map Prod.fst :=
  init_then_draw_static_renders_each_window_once envStatic ⟨7⟩ imgStatic rfl

/-- Claim C4: an Expose event whose target window id is not registered is
silently ignored: the dispatcher returns the state unchanged, every log line
it emits is at debug severity (never error), and the drain loop goes on to
process the remaining queued events. -/
theorem expose_unknown_window_ignored (ectx : ErrCtx) (c : X11Canvas)
    (ev : RawEvent) (evs : List RawEvent)
    (h1 : eventType ev = XCB_EXPOSE)
    (h2 : c.windows.lookup ev.window = none) :
    dispatchEvent ectx c ev =
      (c, [⟨LogLevel.debug, "Received expose event for window " ++ toString ev.window⟩])
    ∧ (∀ l, l ∈ (dispatchEvent ectx c ev).2 → l.level = LogLevel.debug)
    ∧ drainEvents ectx c (ev :: evs) =
        ((drainEvents ectx c evs).1,
          (dispatchEvent ectx c ev).2 ++ (drainEvents ectx c evs).2) := by
  have hne : ¬ eventType ev = 0 := by
    rw [h1]
    decide
  have hd : dispatchEvent ectx c ev =
      (c, [⟨LogLevel.debug, "Received expose event for window " ++ toString ev.window⟩]) := by
    unfold dispatchEvent
    rw [if_neg hne, if_pos h1, h2]
  refine ⟨hd, ?_, ?_⟩
  · intro l hl
    rw [hd] at hl
    rcases List.mem_singleton.mp hl with rfl
    rfl
  · have hcons : drainEvents ectx c (ev :: evs) =
        ((drainEvents ectx (dispatchEvent ectx c ev).1 evs).1,
          (dispatchEvent ectx c ev).2 ++
            (drainEvents ectx (dispatchEvent ectx c ev).1 evs).2) := rfl
    rw [hcons, hd]

/-- Witness for C4: an Expose for window 42 on an empty registry. -/
theorem expose_unknown_window_ignored_witness :
    dispatchEvent errCtxSample freshCanvas evExpose42 =
      (freshCanvas, [⟨LogLevel.debug, "Received expose event for window " ++ toString evExpose42.window⟩])
    ∧ (∀ l, l ∈ (dispatchEvent errCtxSample freshCanvas evExpose42).2 →
        l.level = LogLevel.debug)
    ∧ drainEvents errCtxSample freshCanvas [evExpose42] =
        ((drainEvents errCtxSample freshCanvas []).1,
          (dispatchEvent errCtxSample freshCanvas evExpose42).2 ++
            (drainEvents errCtxSample freshCanvas []).2) :=
  expose_unknown_window_ignored errCtxSample freshCanvas evExpose42 [] (by decide) rfl

/-- Claim C5: a protocol error event (type code 0 after masking the high
bit) produces a single error-level log line containing all five decoded
fields (error name, major opcode name, minor opcode name, resource id,
sequence number), the canvas state is unchanged, and the drain loop goes on
to process the remaining queued events. -/
theorem protocol_error_logged_and_loop_continues (ectx : ErrCtx) (c : X11Canvas)
    (ev : RawEvent) (evs : List RawEvent) (mnr : String)
    (h0 : eventType ev = 0)
    (hm : ectx.minor_name ev.major_code ev.minor_code = some mnr) :
    ∃ msg, dispatchEvent ectx c ev = (c, [⟨LogLevel.error, msg⟩])
      ∧ strContains (ectx.error_name ev.error_code).1 msg
      ∧ strContains (ectx.major_name ev.major_code) msg
      ∧ strContains mnr msg
      ∧ strContains (toString ev.resource_id) msg
      ∧ strContains (toString ev.sequence) msg
      ∧ drainEvents ectx c (ev :: evs) =
          ((drainEvents ectx c evs).1,
            ⟨LogLevel.error, msg⟩ :: (drainEvents ectx c evs).2) := by
  refine ⟨"XCB: " ++ (ectx.error_name ev.error_code).1 ++ ":" ++
      (ectx.error_name ev.error_code).2.getD "no_extension" ++ ", " ++
      ectx.major_name ev.major_code ++ ":" ++ mnr ++ ", resource " ++
      toString ev.resource_id ++ " sequence " ++ toString ev.sequence,
    ?_, ?_, ?_, ?_, ?_, ?_, ?_⟩
  case refine_1 => simp [dispatchEvent, h0, hm]
  case refine_2 =>
    exact strContains_append_right _ (strContains_append_right _
      (strContains_append_right _ (strContains_append_right _
      (strContains_append_right _ (strContains_append_right _
      (strContains_append_right _ (strContains_append_right _
      (strContains_append_right _ (strContains_append_right _
      (strContains_tail _ _))))))))))
  case refine_3 =>
    exact strContains_append_right _ (strContains_append_right _
      (strContains_append_right _ (strContains_append_right _
      (strContains_append_right _ (strContains_append_right _
      (strContains_tail _ _))))))
  case refine_4 =>
    exact strContains_append_right _ (strContains_append_right _
      (strContains_append_right _ (strContains_append_right _
      (strContains_tail _ _))))
  case refine_5 =>
    exact strContains_append_right _ (strContains_append_right _
      (strContains_tail _ _))
  case refine_6 => exact strContains_tail _ _
  case refine_7 =>
    have hd : dispatchEvent ectx c ev = (c,
        [⟨LogLevel.error, "XCB: " ++ (ectx.error_name ev.error_code).1 ++ ":" ++
          (ectx.error_name ev.error_code).2.getD "no_extension" ++ ", " ++
          ectx.major_name ev.major_code ++ ":" ++ mnr ++ ", resource " ++
          toString ev.resource_id ++ " sequence " ++ toString ev.sequence⟩]) := by
      simp [dispatchEvent, h0, hm]
    have hcons : drainEvents ectx c (ev :: evs) =
        ((drainEvents ectx (dispatchEvent ectx c ev).1 evs).1,
          (dispatchEvent ectx c ev).2 ++
            (drainEvents ectx (dispatchEvent ectx c ev).1 evs).2) := rfl
    rw [hcons, hd]
    rfl

/-- Witness for C5: the error event `evError` decoded through
`errCtxSample`. -/
theorem protocol_error_logged_witness :
    ∃ msg, dispatchEvent errCtxSample freshCanvas evError =
        (freshCanvas, [⟨LogLevel.error, msg⟩])
      ∧ strContains (errCtxSample.error_name evError.error_code).1 msg
      ∧ strContains (errCtxSample.major_name evError.major_code) msg
      ∧ strContains "MIN" msg
      ∧ strContains (toString evError.resource_id) msg
      ∧ strContains (toString evError.sequence) msg
      ∧ drainEvents errCtxSample freshCanvas [evError] =
          ((drainEvents errCtxSample freshCanvas []).1,
            ⟨LogLevel.error, msg⟩ :: (drainEvents errCtxSample freshCanvas []).2) :=
  protocol_error_logged_and_loop_continues errCtxSample freshCanvas evError []
    "MIN" (by decide) rfl

/-- Claim C6: construction aborts exactly when the display cannot be opened,
the xcb connection cannot be derived, or no depth-32 `TrueColor` visual
matches; on success the connection and visual come from the respective
queries, and (the default screen index being in range, as the X server
guarantees) the screen is selected. -/
theorem constructor_aborts_iff (env : ConnEnv) :
    ((∃ e, constructCanvas env = Except.error e) ↔
      env.open_display = none
      ∨ ∃ d, env.open_display = some d ∧
          (env.get_xcb_connection d = none
           ∨ ∃ conn, env.get_xcb_connection d = some conn ∧
               env.match_visual d (env.default_screen d) 32 TrueColorClass = none))
    ∧ ∀ ctx, constructCanvas env = Except.ok ctx →
        env.open_display = some ctx.display
        ∧ env.get_xcb_connection ctx.display = some ctx.connection
        ∧ env.match_visual ctx.display ctx.default_screen 32 TrueColorClass = some ctx.vinfo
        ∧ (env.default_screen ctx.display < env.screens.length →
            ctx.screen.isSome = true) := by
  cases hod : env.open_display with
  | none =>
    have hcc : constructCanvas env = Except.error "Can't open X11 display" := by
      unfold constructCanvas
      rw [hod]
    refine ⟨⟨fun _ => Or.inl rfl, fun _ => ⟨_, hcc⟩⟩, ?_⟩
    intro ctx hok
    rw [hcc] at hok
    cases hok
  | some d =>
    cases hc : env.get_xcb_connection d with
    | none =>
      have hcc : constructCanvas env =
          Except.error "Can't get xcb connection from display" := by
        unfold constructCanvas
        rw [hod]
        dsimp only
        rw [hc]
      refine ⟨⟨fun _ => Or.inr ⟨d, rfl, Or.inl hc⟩, fun _ => ⟨_, hcc⟩⟩, ?_⟩
      intro ctx hok
      rw [hcc] at hok
      cases hok
    | some conn =>
      cases hv : env.match_visual d (env.default_screen d) 32 TrueColorClass with
      | none =>
        have hcc : constructCanvas env = Except.error "Can't find visual" := by
          unfold constructCanvas
          rw [hod]
          dsimp only
          rw [hc]
          dsimp only
          rw [hv]
        refine ⟨⟨fun _ => Or.inr ⟨d, rfl, Or.inr ⟨conn, hc, hv⟩⟩,
          fun _ => ⟨_, hcc⟩⟩, ?_⟩
        intro ctx hok
        rw [hcc] at hok
        cases hok
      | some vinfo =>
        have hcc : constructCanvas env = Except.ok
            { display := d, default_screen := env.default_screen d,
              connection := conn,
              screen := screenWalk env.screens (env.default_screen d),
              vinfo := vinfo } := by
          unfold constructCanvas
          rw [hod]
          dsimp only
          rw [hc]
          dsimp only
          rw [hv]
        refine ⟨⟨?_, ?_⟩, ?_⟩
        · rintro ⟨e, he⟩
          rw [hcc] at he
          cases he
        · rintro (habs | ⟨d', hd', habs⟩)
          · exact Option.noConfusion habs
          · have hdd := Option.some_injective _ hd'
            subst hdd
            rcases habs with habs | ⟨conn', hc', habs⟩
            · rw [hc] at habs
              exact Option.noConfusion habs
            · rw [hv] at habs
              exact Option.noConfusion habs
        · intro ctx hok
          rw [hcc] at hok
          injection hok with hok'
          subst hok'
          refine ⟨rfl, hc, hv, ?_⟩
          intro hlt
          show (screenWalk env.screens (env.default_screen d)).isSome = true
          rw [screenWalk_eq_get, List.get?_eq_get hlt]
          rfl

/-- Witness for C6: construction on `envNoDisplay` aborts, and on
`envConnOk` succeeds with all of connection, screen and visual selected. -/
theorem constructor_aborts_iff_witness :
    (∃ e, constructCanvas envNoDisplay = Except.error e)
    ∧ ctxConnOk.screen.isSome = true :=
  ⟨(constructor_aborts_iff envNoDisplay).1.mpr (Or.inl rfl),
    ((constructor_aborts_iff envConnOk).2 ctxConnOk rfl).2.2.2 (by decide)⟩

end UeberzugX11
